import Mathlib

/-!
# AudioAdjuster (dsPIC33F): mode controller and frame dispatcher of `main.c`

A shallow embedding of the endless loop of `main()` in
`src/AudioAdjuster/src/main.c`, for the build in which none of the `__DEBUG_*`
symbols is defined (all four `#define` lines are commented out in the source).

Modelling conventions

* `int` variables are Lean `Int`s.  The only unguarded increment is `iMode++`;
  it is modelled by `incrInt`, the increment of the 16 bit `int` of the target.
  `iShiftAmount++` only runs under the guard `iShiftAmount < 10`, where it
  cannot overflow, so it is a plain `+ 1`.
* `float fCarrierFrequency` is a rational number.  Every value the variable
  takes in a run is of the form `1 + 62.5 * k` with `k ≤ 10`
  (`lockstep_runControls` below), a multiple of one half that is at most 626;
  these values, and their sums with 62.5, are exactly representable in
  binary32, so the model and the machine agree on every run of the program.
  In statements about an arbitrary state `+ 62.5` is the exact sum.
* `fractional` (Q15) samples are `Int`s, `fractcomplex` is a pair of them, a
  buffer is a `List`.
* Functions of the repository and of the vendor libraries whose bodies are not
  part of `src/` are the fields of `Library`; every theorem holds for every
  `Library`.
-/

namespace AudioAdjuster

/-! ## Constants of `main.c` (lines 38-53) -/

def FRAME_SIZE : Nat := 128
def UPPER_CARRIER_FREQ : ℚ := 625
def LOWER_CARRIER_FREQ : ℚ := 62.5
def CARRIER_INC : ℚ := 62.5
def CARRIER_DEC : ℚ := 62.5
def PRESSED : Int := 1
def UNPRESSED : Int := 0

def MODE_DO_NOTHING : Int := 0
def MODE_BAND_PASS_FILTER : Int := 1
def MODE_BAND_PASS_SHIFT : Int := 3
def MODE_LOW_PASS_FILTER : Int := 2
def MODE_LOW_PASS_SHIFT : Int := 4
def MODE_FREQ_DOMAIN : Int := 5
def MODE_TOTAL : Int := 6

/-! ## Data -/

/-- The Q15 sample type `fractional` of the DSP library (a 16 bit integer). -/
abbrev fractional := Int

/-- The type `fractcomplex` of the DSP library: a real and an imaginary
`fractional`. -/
structure fractcomplex where
  real : fractional
  imag : fractional
  deriving DecidableEq, Repr

/-- The functions called by `main()` whose bodies are not under `src/`:
`createComplexSignal` (declared in `inc/modulate.h`), the filters of
`filter.h`, `combinationVectorMultiply` of `complexmultiply.h` and the
transforms of `transform.h`.  Each field maps the frame size and the source
buffers to the contents written to the destination buffer(s). -/
structure Library where
  createComplexSignal : ℚ → Nat → List fractcomplex
  bandPassFilter : Nat → List fractional → List fractional
  shiftedLowPassFilter : Nat → List fractional → List fractional
  combinationVectorMultiply :
    Nat → List fractional → List fractcomplex → List fractional × List fractcomplex
  fourierTransform : Nat → List fractional → List fractcomplex
  filterNegativeFreq : Nat → List fractcomplex → List fractcomplex
  shiftFreqSpectrum : Nat → Int → List fractcomplex → List fractcomplex
  inverseFourierTransform : Nat → List fractcomplex → List fractional

/-- The local variables of `main()` that live across loop iterations
(lines 82-88), together with the global carrier buffer `compCarrierSignal`. -/
structure ControllerState where
  iMode : Int
  iSwitch1Pressed : Int
  iSwitch2Pressed : Int
  iShiftAmount : Int
  fCarrierFrequency : ℚ
  compCarrierSignal : List fractcomplex
  deriving DecidableEq, Repr

/-! ## Operations -/

/-- The statement `x++` on the 16 bit `int` of the dsPIC33F: the successor,
wrapping from 32767 to -32768. -/
def incrInt (x : Int) : Int :=
  if x + 1 > 32767 then -32768 else x + 1

/-- Modelled from the spec: `VectorCopy` is the vendor DSP library routine
(`dsp.h`), its body is not under `src/`; the Passthrough row of the routing
table says "copy input directly to output, unmodified".  The first `numElems`
elements of the destination are replaced by those of the source. -/
def VectorCopy (numElems : Nat) (dstV srcV : List fractional) : List fractional :=
  srcV.take numElems ++ dstV.drop numElems

/-- The state of `main()` on entry to the loop (lines 82-88). -/
def initialState (L : Library) : ControllerState where
  iMode := MODE_DO_NOTHING
  iSwitch1Pressed := UNPRESSED
  iSwitch2Pressed := UNPRESSED
  iShiftAmount := 1
  fCarrierFrequency := 1
  compCarrierSignal := L.createComplexSignal 1 FRAME_SIZE

/-- The handling of switch 1 in one loop iteration (lines 123-147);
`sw1` is the value returned by `CheckSwitchS1()`. -/
def handleSwitch1 (L : Library) (s : ControllerState) (sw1 : Int) : ControllerState :=
  if sw1 = PRESSED then
    if s.iSwitch1Pressed = UNPRESSED then
      let iMode := incrInt s.iMode
      let iMode := if iMode ≥ MODE_TOTAL then 0 else iMode
      { s with
        iMode := iMode
        iSwitch1Pressed := PRESSED
        fCarrierFrequency := 1
        compCarrierSignal := L.createComplexSignal 1 FRAME_SIZE
        iShiftAmount := 1 }
    else s
  else if s.iSwitch1Pressed = PRESSED then
    { s with iSwitch1Pressed := UNPRESSED }
  else s

/-- The handling of switch 2 in one loop iteration (lines 149-177);
`sw2` is the value returned by `CheckSwitchS2()`. -/
def handleSwitch2 (L : Library) (s : ControllerState) (sw2 : Int) : ControllerState :=
  if sw2 = PRESSED then
    if s.iSwitch2Pressed = UNPRESSED then
      let fCarrierFrequency :=
        if s.fCarrierFrequency < UPPER_CARRIER_FREQ then s.fCarrierFrequency + CARRIER_INC
        else s.fCarrierFrequency
      let iShiftAmount :=
        if s.iShiftAmount < 10 then s.iShiftAmount + 1 else s.iShiftAmount
      { s with
        iSwitch2Pressed := PRESSED
        fCarrierFrequency := fCarrierFrequency
        iShiftAmount := iShiftAmount
        compCarrierSignal := L.createComplexSignal fCarrierFrequency FRAME_SIZE }
    else s
  else if s.iSwitch2Pressed = PRESSED then
    { s with iSwitch2Pressed := UNPRESSED }
  else s

/-- The control part of one loop iteration (lines 123-177): switch 1 is
handled first, then switch 2. -/
def controlStep (L : Library) (s : ControllerState) (sw1 sw2 : Int) : ControllerState :=
  handleSwitch2 L (handleSwitch1 L s sw1) sw2

/-- The `switch (iMode)` of lines 186-219: the new contents of `frctAudioOut`,
given its old contents and the frame `frctAudioIn` read from the ADC.
`case MODE_DO_NOTHING` and `default` share the first branch of the source,
here the last one. -/
def dispatchFrame (L : Library) (s : ControllerState)
    (frctAudioOut frctAudioIn : List fractional) : List fractional :=
  if s.iMode = MODE_BAND_PASS_FILTER then
    L.bandPassFilter FRAME_SIZE frctAudioIn
  else if s.iMode = MODE_LOW_PASS_FILTER then
    L.shiftedLowPassFilter FRAME_SIZE frctAudioIn
  else if s.iMode = MODE_BAND_PASS_SHIFT then
    let frctAudioWorkSpace := L.bandPassFilter FRAME_SIZE frctAudioIn
    (L.combinationVectorMultiply FRAME_SIZE frctAudioWorkSpace s.compCarrierSignal).1
  else if s.iMode = MODE_LOW_PASS_SHIFT then
    let frctAudioWorkSpace := L.shiftedLowPassFilter FRAME_SIZE frctAudioIn
    (L.combinationVectorMultiply FRAME_SIZE frctAudioWorkSpace s.compCarrierSignal).1
  else if s.iMode = MODE_FREQ_DOMAIN then
    let compX := L.fourierTransform FRAME_SIZE frctAudioIn
    let compXfiltered := L.filterNegativeFreq FRAME_SIZE compX
    let compXshifted := L.shiftFreqSpectrum FRAME_SIZE s.iShiftAmount compXfiltered
    L.inverseFourierTransform FRAME_SIZE compXshifted
  else
    VectorCopy FRAME_SIZE frctAudioOut frctAudioIn

/-- One iteration of `while(1)` (lines 121-225): the two switches are handled,
the frame `frctAudioIn` is read from the ADC and dispatched, and the resulting
`frctAudioOut` is what `OCPWMWrite` sends to the output. -/
def loopIteration (L : Library) (s : ControllerState) (frctAudioOut : List fractional)
    (sw1 sw2 : Int) (frctAudioIn : List fractional) : ControllerState × List fractional :=
  let s := controlStep L s sw1 sw2
  (s, dispatchFrame L s frctAudioOut frctAudioIn)

/-- The controller state after a sequence of loop iterations; each element of
`inputs` holds the readings of `CheckSwitchS1()` and `CheckSwitchS2()` of one
iteration. -/
def runControls (L : Library) (s : ControllerState) (inputs : List (Int × Int)) :
    ControllerState :=
  inputs.foldl (fun t p => controlStep L t p.1 p.2) s

/-! ## Vocabulary of the specification -/

/-- The number of presses in a sequence of readings of one switch: the
readings equal to `PRESSED` whose predecessor (`held` for the first one) was
not a pressed reading. -/
def countPresses : Bool → List Int → Nat
  | _, [] => 0
  | held, r :: rs =>
    (if r = PRESSED ∧ held = false then 1 else 0) + countPresses (decide (r = PRESSED)) rs

/-- One triggered adjustment of the shift amount (lines 161-164). -/
def bumpShift (x : Int) : Int := if x < 10 then x + 1 else x

/-- One triggered adjustment of the carrier frequency (lines 157-160). -/
def bumpFrequency (f : ℚ) : ℚ := if f < UPPER_CARRIER_FREQ then f + CARRIER_INC else f

/-- The six modes in the order of the `Mode` enumeration of the specification:
Passthrough, BandPassOnly, LowPassOnly, BandPassShift, LowPassShift,
FrequencyDomain. -/
def modeCycle : List Int :=
  [ MODE_DO_NOTHING, MODE_BAND_PASS_FILTER, MODE_LOW_PASS_FILTER, MODE_BAND_PASS_SHIFT,
    MODE_LOW_PASS_SHIFT, MODE_FREQ_DOMAIN]

/-- The invariant of the controller: frequency and shift amount have been
raised the same number `k ≤ 10` of times since the last reset, and the carrier
buffer holds the signal of the current frequency. -/
def Lockstep (L : Library) (s : ControllerState) : Prop :=
  ∃ k : Nat, k ≤ 10 ∧ s.fCarrierFrequency = 1 + CARRIER_INC * k ∧
    s.iShiftAmount = ((min (1 + k) 10 : Nat) : Int) ∧
    s.compCarrierSignal = L.createComplexSignal s.fCarrierFrequency FRAME_SIZE

/-- One press of switch 2 followed by its release, switch 1 untouched. -/
def pressAndReleaseB : List (Int × Int) := [(UNPRESSED, PRESSED), (UNPRESSED, UNPRESSED)]

/-- The readings of `k` presses of switch 2, each followed by a release. -/
def pressesB (k : Nat) : List (Int × Int) :=
  (List.replicate k pressAndReleaseB).flatten

/-- The `Mode` enumeration of the specification (section 3). -/
inductive Mode where
  | Passthrough
  | BandPassOnly
  | LowPassOnly
  | BandPassShift
  | LowPassShift
  | FrequencyDomain
  deriving DecidableEq, Repr

/-- The value of `iMode` that stands for a mode (the `MODE_*` constants of
lines 47-52). -/
def Mode.code : Mode → Int
  | .Passthrough => MODE_DO_NOTHING
  | .BandPassOnly => MODE_BAND_PASS_FILTER
  | .LowPassOnly => MODE_LOW_PASS_FILTER
  | .BandPassShift => MODE_BAND_PASS_SHIFT
  | .LowPassShift => MODE_LOW_PASS_SHIFT
  | .FrequencyDomain => MODE_FREQ_DOMAIN

/-- The routing table of section 4.3 of the specification, row by row: the
output frame for a mode, the input frame, the stored carrier and the current
shift amount. -/
def routingTable (L : Library) (mode : Mode) (carrier : List fractcomplex)
    (shiftAmount : Int) (input : List fractional) : List fractional :=
  match mode with
  | .Passthrough => input
  | .BandPassOnly => L.bandPassFilter 128 input
  | .LowPassOnly => L.shiftedLowPassFilter 128 input
  | .BandPassShift => (L.combinationVectorMultiply 128 (L.bandPassFilter 128 input) carrier).1
  | .LowPassShift =>
    (L.combinationVectorMultiply 128 (L.shiftedLowPassFilter 128 input) carrier).1
  | .FrequencyDomain =>
    L.inverseFourierTransform 128
      (L.shiftFreqSpectrum 128 shiftAmount
        (L.filterNegativeFreq 128 (L.fourierTransform 128 input)))

/-- Modelled from the spec: the conversion of a sample value to `fractional`
is part of the body of `createComplexSignal` (`modulate.c`), which is not
under `src/`; section 4.1 says "fixed-point arithmetic must saturate rather
than overflow".  The Q15 value nearest to `x`, saturated to the 16 bit
range. -/
def fixedPoint (x : ℚ) : fractional :=
  max (-32768) (min 32767 ⌊x * 32768 + 1 / 2⌋)

/-- Modelled from the spec: the body of `createComplexSignal` (declared in
`inc/modulate.h`, defined in `modulate.c`) is not under `src/`; section 4.1
says it "produces, for index n in [0, frameLength), a complex sample
representing a rotating unit-magnitude phasor whose angular increment per
sample corresponds to `frequency`".  Here `cosine t` and `sine t` stand for the
cosine and the sine of the angle of `t` cycles as the C mathematics library
computes them, and `samplingRate` is the fixed sample rate of the system. -/
def createComplexSignalSpec (cosine sine : ℚ → ℚ) (samplingRate : ℚ)
    (fFrequency : ℚ) (iFrameSize : Nat) : List fractcomplex :=
  (List.range iFrameSize).map fun (n : Nat) =>
    ⟨fixedPoint (cosine (fFrequency * (n : ℚ) / samplingRate)),
      fixedPoint (sine (fFrequency * (n : ℚ) / samplingRate))⟩

/-- A concrete library at which theorems are instantiated on closed inputs:
the carrier is the constant Q15 phasor `(32767, 0)`, the filters and
transforms move the samples unchanged between the real and the complex
representation. -/
def sampleLibrary : Library where
  createComplexSignal := fun _ n => List.replicate n ⟨32767, 0⟩
  bandPassFilter := fun n src => src.take n
  shiftedLowPassFilter := fun n src => src.take n
  combinationVectorMultiply := fun n src c => (src.take n, c.take n)
  fourierTransform := fun n src => (src.take n).map (fun x => ⟨x, 0⟩)
  filterNegativeFreq := fun n src => src.take n
  shiftFreqSpectrum := fun n _ src => src.take n
  inverseFourierTransform := fun n src => (src.take n).map (fun c => c.real)

/-! ## Auxiliary lemmas -/

/-- The handling of switch 2 never touches the mode. -/
theorem handleSwitch2_iMode (L : Library) (s : ControllerState) (sw2 : Int) :
    (handleSwitch2 L s sw2).iMode = s.iMode := by
  unfold handleSwitch2
  split_ifs <;> rfl

/-- The handling of switch 2 never touches latch 1. -/
theorem handleSwitch2_iSwitch1Pressed (L : Library) (s : ControllerState) (sw2 : Int) :
    (handleSwitch2 L s sw2).iSwitch1Pressed = s.iSwitch1Pressed := by
  unfold handleSwitch2
  split_ifs <;> rfl

/-- The handling of switch 1 never touches latch 2. -/
theorem handleSwitch1_iSwitch2Pressed (L : Library) (s : ControllerState) (sw1 : Int) :
    (handleSwitch1 L s sw1).iSwitch2Pressed = s.iSwitch2Pressed := by
  unfold handleSwitch1
  split_ifs <;> rfl

/-- The state after a rising edge of switch 2. -/
theorem handleSwitch2_edge (L : Library) (s : ControllerState) (sw2 : Int)
    (h1 : sw2 = PRESSED) (h2 : s.iSwitch2Pressed = UNPRESSED) :
    handleSwitch2 L s sw2 =
      { s with
        iSwitch2Pressed := PRESSED
        fCarrierFrequency :=
          if s.fCarrierFrequency < UPPER_CARRIER_FREQ then s.fCarrierFrequency + CARRIER_INC
          else s.fCarrierFrequency
        iShiftAmount := if s.iShiftAmount < 10 then s.iShiftAmount + 1 else s.iShiftAmount
        compCarrierSignal := L.createComplexSignal
          (if s.fCarrierFrequency < UPPER_CARRIER_FREQ then s.fCarrierFrequency + CARRIER_INC
            else s.fCarrierFrequency) FRAME_SIZE } := by
  simp only [handleSwitch2, h1, h2, if_true]

/-- Without a rising edge the handling of switch 2 changes latch 2 at most. -/
theorem handleSwitch2_no_edge (L : Library) (s : ControllerState) (sw2 : Int)
    (h : ¬ (sw2 = PRESSED ∧ s.iSwitch2Pressed = UNPRESSED)) :
    handleSwitch2 L s sw2 =
      { s with iSwitch2Pressed :=
          if sw2 ≠ PRESSED ∧ s.iSwitch2Pressed = PRESSED then UNPRESSED
          else s.iSwitch2Pressed } := by
  unfold handleSwitch2
  split_ifs <;> simp_all

/-- The state after a rising edge of switch 1. -/
theorem handleSwitch1_edge (L : Library) (s : ControllerState) (sw1 : Int)
    (h1 : sw1 = PRESSED) (h2 : s.iSwitch1Pressed = UNPRESSED) :
    handleSwitch1 L s sw1 =
      { s with
        iMode := if incrInt s.iMode ≥ MODE_TOTAL then 0 else incrInt s.iMode
        iSwitch1Pressed := PRESSED
        fCarrierFrequency := 1
        compCarrierSignal := L.createComplexSignal 1 FRAME_SIZE
        iShiftAmount := 1 } := by
  simp only [handleSwitch1, h1, h2, if_true]

/-- Without a rising edge the handling of switch 1 changes latch 1 at most. -/
theorem handleSwitch1_no_edge (L : Library) (s : ControllerState) (sw1 : Int)
    (h : ¬ (sw1 = PRESSED ∧ s.iSwitch1Pressed = UNPRESSED)) :
    handleSwitch1 L s sw1 =
      { s with iSwitch1Pressed :=
          if sw1 ≠ PRESSED ∧ s.iSwitch1Pressed = PRESSED then UNPRESSED
          else s.iSwitch1Pressed } := by
  unfold handleSwitch1
  split_ifs <;> simp_all

/-- The invariant holds on entry to the loop and is kept by every step. -/
theorem lockstep_initialState (L : Library) : Lockstep L (initialState L) :=
  ⟨0, by norm_num, by simp [initialState], by simp [initialState], rfl⟩

theorem lockstep_handleSwitch1 (L : Library) (s : ControllerState) (sw1 : Int)
    (h : Lockstep L s) : Lockstep L (handleSwitch1 L s sw1) := by
  by_cases he : sw1 = PRESSED ∧ s.iSwitch1Pressed = UNPRESSED
  · rw [handleSwitch1_edge L s sw1 he.1 he.2]
    exact ⟨0, by norm_num, by simp, by simp, rfl⟩
  · rw [handleSwitch1_no_edge L s sw1 he]
    exact h

theorem lockstep_handleSwitch2 (L : Library) (s : ControllerState) (sw2 : Int)
    (h : Lockstep L s) : Lockstep L (handleSwitch2 L s sw2) := by
  by_cases he : sw2 = PRESSED ∧ s.iSwitch2Pressed = UNPRESSED
  · obtain ⟨k, hk, hf, hsh, -⟩ := h
    rw [handleSwitch2_edge L s sw2 he.1 he.2]
    by_cases hlt : k < 10
    · have hk9 : (k : ℚ) ≤ 9 := by exact_mod_cast (by omega : k ≤ 9)
      have hlt625 : s.fCarrierFrequency < UPPER_CARRIER_FREQ := by
        rw [hf]; simp only [UPPER_CARRIER_FREQ, CARRIER_INC]; linarith
      refine ⟨k + 1, by omega, ?_, ?_, rfl⟩
      · show (if _ then _ else _) = _
        rw [if_pos hlt625, hf]; push_cast; ring
      · simp only [hsh]
        split_ifs <;> omega
    · have hk10 : k = 10 := by omega
      subst hk10
      have hge : ¬ s.fCarrierFrequency < UPPER_CARRIER_FREQ := by
        rw [hf]; simp only [UPPER_CARRIER_FREQ, CARRIER_INC]; norm_num
      refine ⟨10, le_refl _, ?_, ?_, rfl⟩
      · show (if _ then _ else _) = _
        rw [if_neg hge, hf]
      · simp only [hsh]; norm_num
  · rw [handleSwitch2_no_edge L s sw2 he]
    exact h

theorem lockstep_controlStep (L : Library) (s : ControllerState) (sw1 sw2 : Int)
    (h : Lockstep L s) : Lockstep L (controlStep L s sw1 sw2) :=
  lockstep_handleSwitch2 L _ sw2 (lockstep_handleSwitch1 L s sw1 h)

theorem lockstep_runControls (L : Library) (inputs : List (Int × Int)) :
    ∀ s : ControllerState, Lockstep L s → Lockstep L (runControls L s inputs) := by
  induction inputs with
  | nil => intro s h; exact h
  | cons p ps ih =>
    intro s h
    exact ih _ (lockstep_controlStep L s p.1 p.2 h)


theorem runControls_cons (L : Library) (s : ControllerState) (p : Int × Int)
    (ps : List (Int × Int)) :
    runControls L s (p :: ps) = runControls L (controlStep L s p.1 p.2) ps := rfl

theorem runControls_append (L : Library) (s : ControllerState) (xs ys : List (Int × Int)) :
    runControls L s (xs ++ ys) = runControls L (runControls L s xs) ys := by
  simp [runControls, List.foldl_append]

/-- A well-formed latch follows the reading of its switch. -/
theorem handleSwitch1_latch (L : Library) (s : ControllerState) (sw1 : Int)
    (h : s.iSwitch1Pressed = UNPRESSED ∨ s.iSwitch1Pressed = PRESSED) :
    (handleSwitch1 L s sw1).iSwitch1Pressed = if sw1 = PRESSED then PRESSED else UNPRESSED := by
  unfold handleSwitch1
  rcases h with h | h <;> split_ifs <;> simp_all [PRESSED, UNPRESSED]

theorem handleSwitch2_latch (L : Library) (s : ControllerState) (sw2 : Int)
    (h : s.iSwitch2Pressed = UNPRESSED ∨ s.iSwitch2Pressed = PRESSED) :
    (handleSwitch2 L s sw2).iSwitch2Pressed = if sw2 = PRESSED then PRESSED else UNPRESSED := by
  unfold handleSwitch2
  rcases h with h | h <;> split_ifs <;> simp_all [PRESSED, UNPRESSED]

theorem latch_cases (x : Int) : (if x = PRESSED then PRESSED else UNPRESSED) = UNPRESSED ∨
    (if x = PRESSED then PRESSED else UNPRESSED) = PRESSED := by
  split_ifs <;> simp

/-- The mode after a run: the start mode advanced once per press of switch 1. -/
theorem runControls_iMode (L : Library) (inputs : List (Int × Int)) :
    ∀ s : ControllerState,
      (s.iSwitch1Pressed = UNPRESSED ∨ s.iSwitch1Pressed = PRESSED) →
      0 ≤ s.iMode → s.iMode < MODE_TOTAL →
      (runControls L s inputs).iMode =
        (s.iMode + countPresses (decide (s.iSwitch1Pressed = PRESSED))
          (inputs.map Prod.fst)) % 6 := by
  induction inputs with
  | nil =>
    intro s _ h0 h6
    simp only [ MODE_TOTAL] at h6
    simp only [runControls, List.foldl_nil, List.map_nil, countPresses]
    omega
  | cons p ps ih =>
    intro s hl h0 h6
    simp only [ MODE_TOTAL] at h6
    have hlatch : (controlStep L s p.1 p.2).iSwitch1Pressed =
        if p.1 = PRESSED then PRESSED else UNPRESSED := by
      rw [controlStep, handleSwitch2_iSwitch1Pressed, handleSwitch1_latch L s p.1 hl]
    have hmode : (controlStep L s p.1 p.2).iMode = (handleSwitch1 L s p.1).iMode := by
      rw [controlStep, handleSwitch2_iMode]
    by_cases he : p.1 = PRESSED ∧ s.iSwitch1Pressed = UNPRESSED
    · have hm : (controlStep L s p.1 p.2).iMode = (s.iMode + 1) % 6 := by
        rw [hmode, handleSwitch1_edge L s p.1 he.1 he.2]
        simp only [incrInt, MODE_TOTAL]
        split_ifs <;> omega
      rw [runControls_cons, ih _ (by rw [hlatch]; exact latch_cases _)
        (by rw [hm]; omega) (by rw [hm]; simp only [ MODE_TOTAL]; omega), hm, hlatch]
      have hnp : ¬ s.iSwitch1Pressed = PRESSED := by
        rw [he.2]; simp [PRESSED, UNPRESSED]
      simp only [List.map_cons, countPresses, he.1, hnp, if_true, decide_True, decide_False,
        and_self]
      push_cast
      omega
    · have hm : (controlStep L s p.1 p.2).iMode = s.iMode := by
        rw [hmode, handleSwitch1_no_edge L s p.1 he]
      rw [runControls_cons, ih _ (by rw [hlatch]; exact latch_cases _)
        (by rw [hm]; exact h0) (by rw [hm]; simp only [ MODE_TOTAL]; omega), hm, hlatch]
      have hc : (if p.1 = PRESSED ∧ decide (s.iSwitch1Pressed = PRESSED) = false then 1 else 0)
          = 0 := by
        rw [if_neg]
        rintro ⟨h1, h2⟩
        rcases hl with hl | hl
        · exact he ⟨h1, hl⟩
        · simp [hl] at h2
      have hd : decide ((if p.1 = PRESSED then PRESSED else UNPRESSED) = PRESSED)
          = decide (p.1 = PRESSED) := by
        by_cases h1 : p.1 = PRESSED <;> simp [h1, PRESSED, UNPRESSED]
      simp only [List.map_cons, countPresses, hc, hd, zero_add]

theorem countPresses_cons_eq_zero (held : Bool) (r : Int) (rs : List Int)
    (h : countPresses held (r :: rs) = 0) :
    ¬ (r = PRESSED ∧ held = false) ∧ countPresses (decide (r = PRESSED)) rs = 0 := by
  simp only [countPresses] at h
  constructor
  · intro hc
    rw [if_pos hc] at h
    omega
  · omega

/-- A run without a press of switch 1: the mode is kept, and the shift amount
and the carrier frequency are adjusted once per press of switch 2. -/
theorem runControls_noPressA (L : Library) (inputs : List (Int × Int)) :
    ∀ s : ControllerState,
      (s.iSwitch1Pressed = UNPRESSED ∨ s.iSwitch1Pressed = PRESSED) →
      (s.iSwitch2Pressed = UNPRESSED ∨ s.iSwitch2Pressed = PRESSED) →
      countPresses (decide (s.iSwitch1Pressed = PRESSED)) (inputs.map Prod.fst) = 0 →
      (runControls L s inputs).iMode = s.iMode ∧
      (runControls L s inputs).iShiftAmount =
        bumpShift^[countPresses (decide (s.iSwitch2Pressed = PRESSED)) (inputs.map Prod.snd)]
          s.iShiftAmount ∧
      (runControls L s inputs).fCarrierFrequency =
        bumpFrequency^[countPresses (decide (s.iSwitch2Pressed = PRESSED))
          (inputs.map Prod.snd)] s.fCarrierFrequency := by
  induction inputs with
  | nil => intro s _ _ _; simp [runControls, countPresses]
  | cons p ps ih =>
    intro s hA hB hc
    rw [List.map_cons] at hc
    obtain ⟨hne, hc'⟩ := countPresses_cons_eq_zero _ _ _ hc
    have hneA : ¬ (p.1 = PRESSED ∧ s.iSwitch1Pressed = UNPRESSED) := by
      rintro ⟨h1, h2⟩
      apply hne
      refine ⟨h1, ?_⟩
      simp [h2, PRESSED, UNPRESSED]
    have hd : ∀ x : Int, decide ((if x = PRESSED then PRESSED else UNPRESSED) = PRESSED)
        = decide (x = PRESSED) := by
      intro x
      by_cases h1 : x = PRESSED <;> simp [h1, PRESSED, UNPRESSED]
    have hlA : (controlStep L s p.1 p.2).iSwitch1Pressed =
        if p.1 = PRESSED then PRESSED else UNPRESSED := by
      rw [controlStep, handleSwitch2_iSwitch1Pressed, handleSwitch1_latch L s p.1 hA]
    have hB1 : (handleSwitch1 L s p.1).iSwitch2Pressed = s.iSwitch2Pressed :=
      handleSwitch1_iSwitch2Pressed L s p.1
    have hlB : (controlStep L s p.1 p.2).iSwitch2Pressed =
        if p.2 = PRESSED then PRESSED else UNPRESSED := by
      rw [controlStep, handleSwitch2_latch L _ p.2 (by rw [hB1]; exact hB)]
    have h1 : handleSwitch1 L s p.1 = { s with iSwitch1Pressed :=
        if p.1 ≠ PRESSED ∧ s.iSwitch1Pressed = PRESSED then UNPRESSED
        else s.iSwitch1Pressed } := handleSwitch1_no_edge L s p.1 hneA
    obtain ⟨ihm, ihs, ihf⟩ := ih (controlStep L s p.1 p.2) (by rw [hlA]; exact latch_cases _)
      (by rw [hlB]; exact latch_cases _) (by rw [hlA, hd]; exact hc')
    rw [runControls_cons, ihm, ihs, ihf, hlB, hd]
    by_cases he : p.2 = PRESSED ∧ s.iSwitch2Pressed = UNPRESSED
    · have hnp : ¬ s.iSwitch2Pressed = PRESSED := by
        rw [he.2]; simp [PRESSED, UNPRESSED]
      have hcount : countPresses (decide (s.iSwitch2Pressed = PRESSED))
          (List.map Prod.snd (p :: ps)) = countPresses (decide (p.2 = PRESSED))
            (List.map Prod.snd ps) + 1 := by
        simp only [List.map_cons, countPresses, he.1, hnp, if_true, decide_True, decide_False,
          and_self]
        omega
      rw [hcount, Function.iterate_succ_apply, Function.iterate_succ_apply, controlStep,
        handleSwitch2_edge L _ p.2 he.1 (by rw [hB1]; exact he.2), h1]
      exact ⟨rfl, rfl, rfl⟩
    · have hcount : countPresses (decide (s.iSwitch2Pressed = PRESSED))
          (List.map Prod.snd (p :: ps)) = countPresses (decide (p.2 = PRESSED))
            (List.map Prod.snd ps) := by
        have : ¬ (p.2 = PRESSED ∧ decide (s.iSwitch2Pressed = PRESSED) = false) := by
          rintro ⟨h1, h2⟩
          rcases hB with hB | hB
          · exact he ⟨h1, hB⟩
          · simp [hB] at h2
        simp only [List.map_cons, countPresses, this, if_false, zero_add]
      rw [hcount, controlStep,
        handleSwitch2_no_edge L _ p.2 (by rw [hB1]; exact he), h1]
      exact ⟨rfl, rfl, rfl⟩

/-- Repeated adjustments of the shift amount and of the frequency, started at
the values reached after `j` adjustments from the reset values. -/
theorem bumpShift_iterate (k j : Nat) :
    bumpShift^[k] ((min (1 + j) 10 : Nat) : Int) = ((min (1 + j + k) 10 : Nat) : Int) := by
  induction k generalizing j with
  | zero => simp
  | succ k ih =>
    rw [Function.iterate_succ_apply]
    have : bumpShift ((min (1 + j) 10 : Nat) : Int) = ((min (1 + (j + 1)) 10 : Nat) : Int) := by
      unfold bumpShift
      split_ifs <;> omega
    rw [this, ih]
    congr 2
    omega

theorem bumpFrequency_iterate (k j : Nat) :
    bumpFrequency^[k] (1 + CARRIER_INC * (min j 10 : Nat)) =
      1 + CARRIER_INC * (min (j + k) 10 : Nat) := by
  induction k generalizing j with
  | zero => simp
  | succ k ih =>
    rw [Function.iterate_succ_apply]
    have : bumpFrequency (1 + CARRIER_INC * (min j 10 : Nat)) =
        1 + CARRIER_INC * (min (j + 1) 10 : Nat) := by
      unfold bumpFrequency
      by_cases hj : j < 10
      · have e1 : min j 10 = j := by omega
        have e2 : min (j + 1) 10 = j + 1 := by omega
        have hj9 : (j : ℚ) ≤ 9 := by exact_mod_cast (by omega : j ≤ 9)
        rw [e1, e2, if_pos (by simp only [UPPER_CARRIER_FREQ, CARRIER_INC]; linarith)]
        push_cast; ring
      · have e1 : min j 10 = 10 := by omega
        have e2 : min (j + 1) 10 = 10 := by omega
        rw [e1, e2, if_neg (by simp only [UPPER_CARRIER_FREQ, CARRIER_INC]; norm_num)]
    rw [this, ih]
    congr 3
    omega

/-- The run of `k` presses of switch 2 holds no press of switch 1 and `k`
presses of switch 2. -/
theorem countPresses_pressesB (k : Nat) :
    countPresses false ((pressesB k).map Prod.fst) = 0 ∧
    countPresses false ((pressesB k).map Prod.snd) = k := by
  induction k with
  | zero => exact ⟨rfl, rfl⟩
  | succ k ih =>
    have e : pressesB (k + 1) = (UNPRESSED, PRESSED) :: (UNPRESSED, UNPRESSED) :: pressesB k := by
      simp [pressesB, List.replicate_succ, pressAndReleaseB]
    rw [e]
    simp only [List.map_cons, countPresses, PRESSED, UNPRESSED]
    constructor
    · simpa [PRESSED, UNPRESSED] using ih.1
    · have := ih.2
      simp only [PRESSED, UNPRESSED] at this ⊢
      simp [this]
      omega

/-! ## The claims -/

/-- Claim C1, as stated, fails: after 11 presses of switch 2, each followed by
a release, the carrier frequency is above `UPPER_CARRIER_FREQ`. -/
theorem C1_counterexample :
    ¬ ((runControls sampleLibrary (initialState sampleLibrary) (pressesB 11)).fCarrierFrequency
        ≤ UPPER_CARRIER_FREQ) := by
  simp [runControls, pressesB, pressAndReleaseB, controlStep, handleSwitch1, handleSwitch2,
    initialState, PRESSED, UNPRESSED, UPPER_CARRIER_FREQ, CARRIER_INC]
  norm_num

/-- Claim C1, amended: in every controller state reachable from the initial
state by any sequence of loop iterations with arbitrary readings of the two
switches, the carrier frequency is at most 626, one above `UPPER_CARRIER_FREQ`;
and after ten or more presses of switch 2 with intervening releases and no
press of switch 1 (in particular after 11) the frequency has stopped at 626. -/
theorem C1_carrierFrequency_bound (L : Library) (inputs : List (Int × Int)) :
    (runControls L (initialState L) inputs).fCarrierFrequency ≤ UPPER_CARRIER_FREQ + 1 ∧
    (countPresses false (inputs.map Prod.fst) = 0 →
      10 ≤ countPresses false (inputs.map Prod.snd) →
      (runControls L (initialState L) inputs).fCarrierFrequency = UPPER_CARRIER_FREQ + 1) := by
  constructor
  · obtain ⟨k, hk, hf, -, -⟩ := lockstep_runControls L inputs _ (lockstep_initialState L)
    have hk10 : (k : ℚ) ≤ 10 := by exact_mod_cast hk
    rw [hf]
    simp only [UPPER_CARRIER_FREQ, CARRIER_INC]
    linarith
  · intro hA hB
    have h := (runControls_noPressA L inputs (initialState L) (Or.inl rfl) (Or.inl rfl)
      (by simpa [initialState, PRESSED, UNPRESSED] using hA)).2.2
    have hd : decide ((initialState L).iSwitch2Pressed = PRESSED) = false := by
      simp [initialState, PRESSED, UNPRESSED]
    rw [hd] at h
    have h1 : (initialState L).fCarrierFrequency = 1 + CARRIER_INC * (min 0 10 : Nat) := by
      simp [initialState]
    rw [h, h1, bumpFrequency_iterate]
    have : min (0 + countPresses false (inputs.map Prod.snd)) 10 = 10 := by omega
    rw [this]
    simp only [UPPER_CARRIER_FREQ, CARRIER_INC]
    norm_num

/-- The amended claim C1 at the run of 11 presses of switch 2. -/
theorem C1_carrierFrequency_bound_witness :
    countPresses false ((pressesB 11).map Prod.fst) = 0 ∧
    10 ≤ countPresses false ((pressesB 11).map Prod.snd) ∧
    (runControls sampleLibrary (initialState sampleLibrary) (pressesB 11)).fCarrierFrequency
      = UPPER_CARRIER_FREQ + 1 :=
  ⟨by decide, by decide,
    (C1_carrierFrequency_bound sampleLibrary (pressesB 11)).2 (by decide) (by decide)⟩

/-- Claim C3: starting from the initial state, after `k` presses of switch 1
(each separated from the next by a release, with arbitrary readings of
switch 2) the mode is `k mod 6`, that is the entry number `k mod 6` of the
cycle Passthrough, BandPassOnly, LowPassOnly, BandPassShift, LowPassShift,
FrequencyDomain; the mode is Passthrough again exactly when `k` is a multiple
of 6, so after 6 presses and after no smaller positive number of presses. -/
theorem C3_mode_cycle (L : Library) (inputs : List (Int × Int)) :
    (runControls L (initialState L) inputs).iMode
        = ((countPresses false (inputs.map Prod.fst) % 6 : Nat) : Int) ∧
    modeCycle[countPresses false (inputs.map Prod.fst) % 6]?
        = some (runControls L (initialState L) inputs).iMode ∧
    ((runControls L (initialState L) inputs).iMode = MODE_DO_NOTHING ↔
        6 ∣ countPresses false (inputs.map Prod.fst)) := by
  have h := runControls_iMode L inputs (initialState L) (Or.inl rfl) (by simp [initialState,
    MODE_DO_NOTHING]) (by simp [initialState, MODE_DO_NOTHING, MODE_TOTAL])
  have hd : decide ((initialState L).iSwitch1Pressed = PRESSED) = false := by
    simp [initialState, PRESSED, UNPRESSED]
  have h0 : (initialState L).iMode = 0 := rfl
  rw [hd, h0, zero_add] at h
  generalize countPresses false (inputs.map Prod.fst) = k at h ⊢
  have hm : (runControls L (initialState L) inputs).iMode = ((k % 6 : Nat) : Int) := by
    rw [h]; omega
  refine ⟨hm, ?_, ?_⟩
  · rw [hm]
    have hlt : k % 6 < 6 := Nat.mod_lt _ (by norm_num)
    generalize k % 6 = r at hlt
    interval_cases r <;> rfl
  · rw [hm, Nat.dvd_iff_mod_eq_zero]
    simp only [ MODE_DO_NOTHING]
    omega

/-- Claim C4: over a run of consecutive loop iterations, of any length, in
which switch 1 reads pressed in every iteration, the mode advances at most
once: after the run it is the mode of the start state advanced once if latch 1
was Unpressed at the start and the unchanged mode otherwise; and in every later
iteration of the run the handling of switch 1 leaves the whole state (mode,
frequency, shift amount, carrier) as it is.  Here `t` is the state at the
start of any iteration of the run but the first one. -/
theorem C4_held_switch1 (L : Library) (s : ControllerState) (b : Int) (bs : List Int) :
    (runControls L s ((b :: bs).map (fun x => (PRESSED, x)))).iMode =
      (if s.iSwitch1Pressed = UNPRESSED then
        (if incrInt s.iMode ≥ MODE_TOTAL then 0 else incrInt s.iMode)
       else s.iMode) ∧
    handleSwitch1 L (runControls L s ((b :: bs).map (fun x => (PRESSED, x)))) PRESSED
      = runControls L s ((b :: bs).map (fun x => (PRESSED, x))) := by
  have hstay : ∀ t : ControllerState, t.iSwitch1Pressed ≠ UNPRESSED →
      handleSwitch1 L t PRESSED = t := by
    intro t ht
    rw [handleSwitch1_no_edge L t PRESSED (fun h => ht h.2)]
    simp
  have hrun : ∀ (cs : List Int) (t : ControllerState), t.iSwitch1Pressed ≠ UNPRESSED →
      (runControls L t (cs.map (fun x => (PRESSED, x)))).iSwitch1Pressed ≠ UNPRESSED ∧
      (runControls L t (cs.map (fun x => (PRESSED, x)))).iMode = t.iMode := by
    intro cs
    induction cs with
    | nil => intro t ht; exact ⟨ht, rfl⟩
    | cons c cs ih =>
      intro t ht
      rw [List.map_cons, runControls_cons]
      have e : controlStep L t PRESSED c = handleSwitch2 L t c := by
        rw [controlStep, hstay t ht]
      have hl : (handleSwitch2 L t c).iSwitch1Pressed ≠ UNPRESSED := by
        rw [handleSwitch2_iSwitch1Pressed]; exact ht
      obtain ⟨h1, h2⟩ := ih (handleSwitch2 L t c) hl
      simp only [e]
      exact ⟨h1, by rw [h2, handleSwitch2_iMode]⟩
  have hfirst : (controlStep L s PRESSED b).iSwitch1Pressed ≠ UNPRESSED := by
    rw [controlStep, handleSwitch2_iSwitch1Pressed]
    by_cases hs : s.iSwitch1Pressed = UNPRESSED
    · rw [handleSwitch1_edge L s PRESSED rfl hs]
      simp [PRESSED, UNPRESSED]
    · rw [hstay s hs]; exact hs
  rw [List.map_cons, runControls_cons]
  obtain ⟨h1, h2⟩ := hrun bs _ hfirst
  refine ⟨?_, hstay _ h1⟩
  rw [h2, controlStep, handleSwitch2_iMode]
  by_cases hs : s.iSwitch1Pressed = UNPRESSED
  · rw [handleSwitch1_edge L s PRESSED rfl hs, if_pos hs]
  · rw [hstay s hs, if_neg hs]

/-- Claim C5: for every controller state whose latch 1 is Unpressed, whatever
its frequency and shift amount, the handling of a poll in which switch 1 reads
pressed advances the mode (the mode changes; from a mode in 0..5 it becomes the
next one, 5 wrapping to 0) and leaves the frequency at the baseline 1, the
shift amount at 1 and the carrier equal to `createComplexSignal(1, 128)`. -/
theorem C5_mode_advance_resets (L : Library) (s : ControllerState)
    (h : s.iSwitch1Pressed = UNPRESSED) :
    (handleSwitch1 L s PRESSED).iMode ≠ s.iMode ∧
    (0 ≤ s.iMode ∧ s.iMode < MODE_TOTAL →
      (handleSwitch1 L s PRESSED).iMode = (s.iMode + 1) % MODE_TOTAL) ∧
    (handleSwitch1 L s PRESSED).fCarrierFrequency = 1 ∧
    (handleSwitch1 L s PRESSED).iShiftAmount = 1 ∧
    (handleSwitch1 L s PRESSED).compCarrierSignal = L.createComplexSignal 1 128 := by
  rw [handleSwitch1_edge L s PRESSED rfl h]
  refine ⟨?_, ?_, rfl, rfl, rfl⟩
  · simp only [incrInt, MODE_TOTAL]
    split_ifs <;> omega
  · rintro ⟨h0, h6⟩
    simp only [incrInt, MODE_TOTAL] at h6 ⊢
    split_ifs <;> omega

/-- Claim C5 at a state in mode 5 with frequency 626 and shift amount 10. -/
theorem C5_mode_advance_resets_witness :
    (handleSwitch1 sampleLibrary
        ⟨5, UNPRESSED, PRESSED, 10, 626, sampleLibrary.createComplexSignal 626 128⟩
        PRESSED).iMode ≠ 5 ∧
    (0 ≤ (5 : Int) ∧ (5 : Int) < MODE_TOTAL →
      (handleSwitch1 sampleLibrary
        ⟨5, UNPRESSED, PRESSED, 10, 626, sampleLibrary.createComplexSignal 626 128⟩
        PRESSED).iMode = (5 + 1) % MODE_TOTAL) ∧
    (handleSwitch1 sampleLibrary
        ⟨5, UNPRESSED, PRESSED, 10, 626, sampleLibrary.createComplexSignal 626 128⟩
        PRESSED).fCarrierFrequency = 1 ∧
    (handleSwitch1 sampleLibrary
        ⟨5, UNPRESSED, PRESSED, 10, 626, sampleLibrary.createComplexSignal 626 128⟩
        PRESSED).iShiftAmount = 1 ∧
    (handleSwitch1 sampleLibrary
        ⟨5, UNPRESSED, PRESSED, 10, 626, sampleLibrary.createComplexSignal 626 128⟩
        PRESSED).compCarrierSignal = sampleLibrary.createComplexSignal 1 128 :=
  C5_mode_advance_resets sampleLibrary
    ⟨5, UNPRESSED, PRESSED, 10, 626, sampleLibrary.createComplexSignal 626 128⟩ rfl

/-- Claim C6: the shift amount is within 1..10 in every reachable controller
state; and from any state with shift amount 1 (the initial state, or a state
just after a mode advance), after `k` presses of switch 2 with intervening
releases and no press of switch 1, the shift amount is `min (1 + k) 10`, so it
is 10 exactly from the 9th press on. -/
theorem C6_shiftAmount (L : Library) :
    (∀ inputs : List (Int × Int),
      1 ≤ (runControls L (initialState L) inputs).iShiftAmount ∧
      (runControls L (initialState L) inputs).iShiftAmount ≤ 10) ∧
    (∀ (s : ControllerState) (inputs : List (Int × Int)),
      s.iShiftAmount = 1 →
      (s.iSwitch1Pressed = UNPRESSED ∨ s.iSwitch1Pressed = PRESSED) →
      (s.iSwitch2Pressed = UNPRESSED ∨ s.iSwitch2Pressed = PRESSED) →
      countPresses (decide (s.iSwitch1Pressed = PRESSED)) (inputs.map Prod.fst) = 0 →
      (runControls L s inputs).iShiftAmount =
        ((min (1 + countPresses (decide (s.iSwitch2Pressed = PRESSED))
          (inputs.map Prod.snd)) 10 : Nat) : Int) ∧
      ((runControls L s inputs).iShiftAmount = 10 ↔
        9 ≤ countPresses (decide (s.iSwitch2Pressed = PRESSED)) (inputs.map Prod.snd))) := by
  constructor
  · intro inputs
    obtain ⟨k, -, -, hs, -⟩ := lockstep_runControls L inputs _ (lockstep_initialState L)
    rw [hs]
    omega
  · intro s inputs hs hA hB hno
    have h := (runControls_noPressA L inputs s hA hB hno).2.1
    have h1 : s.iShiftAmount = ((min (1 + 0) 10 : Nat) : Int) := by rw [hs]; rfl
    rw [h1, bumpShift_iterate] at h
    rw [h]
    constructor
    · congr 2
    · omega

/-- Claim C6 at the initial state and the run of 9 presses of switch 2. -/
theorem C6_shiftAmount_witness :
    (initialState sampleLibrary).iShiftAmount = 1 ∧
    countPresses (decide ((initialState sampleLibrary).iSwitch1Pressed = PRESSED))
      ((pressesB 9).map Prod.fst) = 0 ∧
    (runControls sampleLibrary (initialState sampleLibrary) (pressesB 9)).iShiftAmount =
      ((min (1 + countPresses (decide ((initialState sampleLibrary).iSwitch2Pressed = PRESSED))
        ((pressesB 9).map Prod.snd)) 10 : Nat) : Int) :=
  ⟨rfl, by decide,
    ((C6_shiftAmount sampleLibrary).2 (initialState sampleLibrary) (pressesB 9) rfl
      (Or.inl rfl) (Or.inl rfl) (by decide)).1⟩

/-- Claim C7, as stated, fails: after 3 presses of switch 2 the carrier
frequency is not 187.5. -/
theorem C7_counterexample :
    ¬ ((runControls sampleLibrary (initialState sampleLibrary) (pressesB 3)).fCarrierFrequency
          = 187.5 ∧
        (runControls sampleLibrary (initialState sampleLibrary) (pressesB 3)).iShiftAmount
          = 4) := by
  simp [runControls, pressesB, pressAndReleaseB, controlStep, handleSwitch1, handleSwitch2,
    initialState, PRESSED, UNPRESSED, UPPER_CARRIER_FREQ, CARRIER_INC]
  norm_num

/-- Claim C7, amended: starting from the initial state (frame length 128,
baseline frequency 1, increment 62.5), after exactly 3 presses of switch 2
with intervening releases and no press of switch 1, the carrier frequency is
188.5 (that is 1 + 3 * 62.5) and the shift amount is 4. -/
theorem C7_three_presses (L : Library) (inputs : List (Int × Int))
    (hA : countPresses false (inputs.map Prod.fst) = 0)
    (hB : countPresses false (inputs.map Prod.snd) = 3) :
    (runControls L (initialState L) inputs).fCarrierFrequency = 188.5 ∧
    (runControls L (initialState L) inputs).fCarrierFrequency = 1 + 3 * CARRIER_INC ∧
    (runControls L (initialState L) inputs).iShiftAmount = 4 := by
  have h := runControls_noPressA L inputs (initialState L) (Or.inl rfl) (Or.inl rfl)
    (by simpa [initialState, PRESSED, UNPRESSED] using hA)
  have hd : decide ((initialState L).iSwitch2Pressed = PRESSED) = false := by
    simp [initialState, PRESSED, UNPRESSED]
  rw [hd, hB] at h
  have h1 : (initialState L).fCarrierFrequency = 1 + CARRIER_INC * (min 0 10 : Nat) := by
    simp [initialState]
  have h2 : (initialState L).iShiftAmount = ((min (1 + 0) 10 : Nat) : Int) := rfl
  obtain ⟨-, hs, hf⟩ := h
  rw [h1, bumpFrequency_iterate] at hf
  rw [h2, bumpShift_iterate] at hs
  rw [hf, hs]
  refine ⟨?_, ?_, ?_⟩
  · simp only [CARRIER_INC]; norm_num
  · simp only [CARRIER_INC]; norm_num
  · norm_num

/-- The amended claim C7 at three presses of switch 2, each followed by a
release. -/
theorem C7_three_presses_witness :
    countPresses false ((pressesB 3).map Prod.fst) = 0 ∧
    countPresses false ((pressesB 3).map Prod.snd) = 3 ∧
    (runControls sampleLibrary (initialState sampleLibrary) (pressesB 3)).fCarrierFrequency
      = 188.5 ∧
    (runControls sampleLibrary (initialState sampleLibrary) (pressesB 3)).iShiftAmount = 4 :=
  ⟨by decide, by decide,
    (C7_three_presses sampleLibrary (pressesB 3) (by decide) (by decide)).1,
    (C7_three_presses sampleLibrary (pressesB 3) (by decide) (by decide)).2.2⟩

/-- Claim C9: for every input frame of 128 samples and every mode value that
is not one of 1..5 (Passthrough = 0 as well as any other integer, negative or
at least 6), the output frame of the dispatcher equals the input frame element
for element, whatever the carrier and the shift amount of the state are. -/
theorem C9_passthrough_fallback (L : Library) (s : ControllerState)
    (frctAudioOut frctAudioIn : List fractional)
    (hIn : frctAudioIn.length = 128) (hOut : frctAudioOut.length = 128)
    (hMode : s.iMode < 1 ∨ 5 < s.iMode) :
    dispatchFrame L s frctAudioOut frctAudioIn = frctAudioIn := by
  have h1 : s.iMode ≠ MODE_BAND_PASS_FILTER := by simp only [ MODE_BAND_PASS_FILTER]; omega
  have h2 : s.iMode ≠ MODE_LOW_PASS_FILTER := by simp only [ MODE_LOW_PASS_FILTER]; omega
  have h3 : s.iMode ≠ MODE_BAND_PASS_SHIFT := by simp only [ MODE_BAND_PASS_SHIFT]; omega
  have h4 : s.iMode ≠ MODE_LOW_PASS_SHIFT := by simp only [ MODE_LOW_PASS_SHIFT]; omega
  have h5 : s.iMode ≠ MODE_FREQ_DOMAIN := by simp only [ MODE_FREQ_DOMAIN]; omega
  simp only [dispatchFrame, if_neg h1, if_neg h2, if_neg h3, if_neg h4, if_neg h5, VectorCopy,
    FRAME_SIZE]
  rw [List.take_of_length_le (le_of_eq hIn), List.drop_of_length_le (le_of_eq hOut),
    List.append_nil]

/-- Claim C9 at the out-of-range mode 7 and the frame of 128 samples 5. -/
theorem C9_passthrough_fallback_witness :
    (List.replicate 128 (5 : fractional)).length = 128 ∧
    (List.replicate 128 (0 : fractional)).length = 128 ∧
    ((7 : Int) < 1 ∨ (5 : Int) < 7) ∧
    dispatchFrame sampleLibrary
      ⟨7, UNPRESSED, UNPRESSED, 4, 188.5, sampleLibrary.createComplexSignal 188.5 128⟩
      (List.replicate 128 0) (List.replicate 128 5) = List.replicate 128 5 :=
  ⟨by simp, by simp, by decide,
    C9_passthrough_fallback sampleLibrary
      ⟨7, UNPRESSED, UNPRESSED, 4, 188.5, sampleLibrary.createComplexSignal 188.5 128⟩
      (List.replicate 128 0) (List.replicate 128 5) (by simp) (by simp) (by decide)⟩

/-- Claim C10: in every controller state reachable from the initial state by
any sequence of readings of the two switches, the stored carrier equals
`createComplexSignal(fCarrierFrequency, 128)` for the current frequency; and
no transition changes the frequency without regenerating the carrier: the
control part of an iteration, from any state, either leaves frequency and
carrier as they were or leaves the carrier regenerated from the resulting
frequency. -/
theorem C10_carrier_in_sync (L : Library) (inputs : List (Int × Int))
    (s : ControllerState) (sw1 sw2 : Int) :
    (runControls L (initialState L) inputs).compCarrierSignal =
      L.createComplexSignal (runControls L (initialState L) inputs).fCarrierFrequency 128 ∧
    (((controlStep L s sw1 sw2).fCarrierFrequency = s.fCarrierFrequency ∧
        (controlStep L s sw1 sw2).compCarrierSignal = s.compCarrierSignal) ∨
      (controlStep L s sw1 sw2).compCarrierSignal =
        L.createComplexSignal (controlStep L s sw1 sw2).fCarrierFrequency 128) := by
  constructor
  · obtain ⟨k, -, -, -, hc⟩ := lockstep_runControls L inputs _ (lockstep_initialState L)
    exact hc
  · unfold controlStep
    by_cases h2 : sw2 = PRESSED ∧ (handleSwitch1 L s sw1).iSwitch2Pressed = UNPRESSED
    · right
      rw [handleSwitch2_edge L _ sw2 h2.1 h2.2]
      rfl
    · rw [handleSwitch2_no_edge L _ sw2 h2]
      by_cases h1 : sw1 = PRESSED ∧ s.iSwitch1Pressed = UNPRESSED
      · right
        rw [handleSwitch1_edge L s sw1 h1.1 h1.2]
        rfl
      · left
        rw [handleSwitch1_no_edge L s sw1 h1]
        exact ⟨rfl, rfl⟩

/-- Claim C11: with the pipeline kernels taken as unknown functions, the frame
dispatcher equals the routing table for every mode and every input frame:
mode 1 gives `bandPassFilter(input)`, mode 2 `shiftedLowPassFilter(input)`,
mode 3 the real output of `combinationVectorMultiply` on
`bandPassFilter(input)` and the stored carrier, mode 4 the same with
`shiftedLowPassFilter(input)`, and mode 5
`inverseFourierTransform(shiftFreqSpectrum(shiftAmount,
filterNegativeFreq(fourierTransform(input))))` with the current shift amount
and the filtered spectrum.  (The row of Passthrough holds for buffers of 128
samples.) -/
theorem C11_dispatch_routing (L : Library) (s : ControllerState) (mode : Mode)
    (frctAudioOut frctAudioIn : List fractional)
    (hMode : s.iMode = mode.code)
    (hLen : mode = Mode.Passthrough →
      frctAudioIn.length = FRAME_SIZE ∧ frctAudioOut.length = FRAME_SIZE) :
    dispatchFrame L s frctAudioOut frctAudioIn =
      routingTable L mode s.compCarrierSignal s.iShiftAmount frctAudioIn := by
  cases mode
  · obtain ⟨hIn, hOut⟩ := hLen rfl
    simp only [dispatchFrame, hMode, Mode.code, MODE_DO_NOTHING, MODE_BAND_PASS_FILTER,
      MODE_LOW_PASS_FILTER, MODE_BAND_PASS_SHIFT, MODE_LOW_PASS_SHIFT, MODE_FREQ_DOMAIN,
      routingTable, VectorCopy]
    rw [List.take_of_length_le (le_of_eq hIn), List.drop_of_length_le (le_of_eq hOut)]
    simp
  all_goals
    simp [dispatchFrame, hMode, Mode.code, MODE_BAND_PASS_FILTER,
      MODE_LOW_PASS_FILTER, MODE_BAND_PASS_SHIFT, MODE_LOW_PASS_SHIFT, MODE_FREQ_DOMAIN,
      routingTable, FRAME_SIZE]

/-- Claim C11 at the FrequencyDomain mode with shift amount 4. -/
theorem C11_dispatch_routing_witness :
    (5 : Int) = Mode.FrequencyDomain.code ∧
    dispatchFrame sampleLibrary
      ⟨5, UNPRESSED, UNPRESSED, 4, 188.5, sampleLibrary.createComplexSignal 188.5 128⟩
      (List.replicate 128 0) (List.replicate 128 5) =
    routingTable sampleLibrary Mode.FrequencyDomain
      (sampleLibrary.createComplexSignal 188.5 128) 4 (List.replicate 128 5) :=
  ⟨rfl, C11_dispatch_routing sampleLibrary
    ⟨5, UNPRESSED, UNPRESSED, 4, 188.5, sampleLibrary.createComplexSignal 188.5 128⟩
    Mode.FrequencyDomain (List.replicate 128 0) (List.replicate 128 5) rfl
    (fun h => by cases h)⟩

/-- Claim C12: within one loop iteration both switches are resolved before the
frame is dispatched.  For every state, every pair of readings and every input
frame, the frame written to the sink in that iteration is the dispatcher
applied to the state as it is after the handling of both switches in that
iteration; so a mode advance detected in an iteration already governs the
frame of that iteration: from Passthrough with latch 1 Unpressed, a pressed
reading of switch 1 makes the frame of the same iteration the band-pass
filtered input, whatever switch 2 reads. -/
theorem C12_controls_before_dispatch (L : Library) (s : ControllerState)
    (frctAudioOut : List fractional) (sw1 sw2 : Int) (frctAudioIn : List fractional) :
    (loopIteration L s frctAudioOut sw1 sw2 frctAudioIn).1 = controlStep L s sw1 sw2 ∧
    (loopIteration L s frctAudioOut sw1 sw2 frctAudioIn).2 =
      dispatchFrame L (handleSwitch2 L (handleSwitch1 L s sw1) sw2) frctAudioOut
        frctAudioIn ∧
    (s.iMode = MODE_DO_NOTHING → s.iSwitch1Pressed = UNPRESSED → sw1 = PRESSED →
      (loopIteration L s frctAudioOut sw1 sw2 frctAudioIn).2 =
        L.bandPassFilter FRAME_SIZE frctAudioIn) := by
  refine ⟨rfl, rfl, ?_⟩
  intro hm hl h1
  have hmode : (handleSwitch2 L (handleSwitch1 L s sw1) sw2).iMode = MODE_BAND_PASS_FILTER := by
    rw [handleSwitch2_iMode, handleSwitch1_edge L s sw1 h1 hl]
    simp [hm, incrInt, MODE_DO_NOTHING, MODE_TOTAL, MODE_BAND_PASS_FILTER]
  simp only [loopIteration, controlStep, dispatchFrame, hmode, if_true]

/-- Claim C12 at the initial state with switch 1 pressed: the frame of that
iteration is already the band-pass filtered one. -/
theorem C12_controls_before_dispatch_witness :
    (initialState sampleLibrary).iMode = MODE_DO_NOTHING ∧
    (initialState sampleLibrary).iSwitch1Pressed = UNPRESSED ∧
    (loopIteration sampleLibrary (initialState sampleLibrary) (List.replicate 128 0)
      PRESSED UNPRESSED (List.replicate 128 5)).2 =
        sampleLibrary.bandPassFilter FRAME_SIZE (List.replicate 128 5) :=
  ⟨rfl, rfl,
    (C12_controls_before_dispatch sampleLibrary (initialState sampleLibrary)
      (List.replicate 128 0) PRESSED UNPRESSED (List.replicate 128 5)).2.2 rfl rfl rfl⟩

/-- Claim C13: `createComplexSignal(0, N, out)` fills all `N` samples with the
fixed-point representation of (1, 0), that is with (32767, 0), for every
frame length `N` and in particular for `N = 128`. -/
theorem C13_zero_frequency_carrier (cosine sine : ℚ → ℚ) (samplingRate : ℚ) (N : Nat)
    (hCos : cosine 0 = 1) (hSin : sine 0 = 0) :
    createComplexSignalSpec cosine sine samplingRate 0 N
      = List.replicate N ⟨fixedPoint 1, fixedPoint 0⟩ ∧
    (createComplexSignalSpec cosine sine samplingRate 0 N).length = N ∧
    fixedPoint 1 = 32767 ∧ fixedPoint 0 = 0 := by
  refine ⟨?_, by simp [createComplexSignalSpec], ?_, ?_⟩
  · apply List.ext_getElem
    · simp [createComplexSignalSpec]
    · intro i h1 h2
      simp [createComplexSignalSpec, hCos, hSin]
  · simp only [fixedPoint]
    norm_num
  · simp only [fixedPoint]
    norm_num

/-- Claim C13 at `N = 128`, with a rational parametrisation of the unit circle
in place of the cosine and the sine. -/
theorem C13_zero_frequency_carrier_witness :
    (fun t : ℚ => (1 - t ^ 2) / (1 + t ^ 2)) 0 = 1 ∧
    (fun t : ℚ => 2 * t / (1 + t ^ 2)) 0 = 0 ∧
    createComplexSignalSpec (fun t => (1 - t ^ 2) / (1 + t ^ 2))
        (fun t => 2 * t / (1 + t ^ 2)) 8000 0 128
      = List.replicate 128 ⟨fixedPoint 1, fixedPoint 0⟩ :=
  ⟨by norm_num, by norm_num,
    (C13_zero_frequency_carrier (fun t => (1 - t ^ 2) / (1 + t ^ 2))
      (fun t => 2 * t / (1 + t ^ 2)) 8000 128 (by norm_num) (by norm_num)).1⟩

/-- Claim C14: carrier frequency and shift amount move in lockstep.  In every
controller state reachable from the initial state there is a `k` with
`0 ≤ k ≤ 10` such that the frequency is `1 + 62.5 * k` and the shift amount is
`min (1 + k) 10`; the reachable frequencies are exactly the 11 values
1, 63.5, ..., 626; and there is no reachable state in which the frequency is
capped (not below 625) while the shift amount can still grow (is below 10). -/
theorem C14_lockstep (L : Library) :
    (∀ inputs : List (Int × Int), ∃ k : Nat, k ≤ 10 ∧
      (runControls L (initialState L) inputs).fCarrierFrequency = 1 + 62.5 * k ∧
      (runControls L (initialState L) inputs).iShiftAmount = ((min (1 + k) 10 : Nat) : Int)) ∧
    (∀ f : ℚ, (∃ inputs : List (Int × Int),
        (runControls L (initialState L) inputs).fCarrierFrequency = f) ↔
      (∃ k : Nat, k ≤ 10 ∧ f = 1 + 62.5 * k)) ∧
    (∀ inputs : List (Int × Int),
      ¬ (¬ (runControls L (initialState L) inputs).fCarrierFrequency < UPPER_CARRIER_FREQ ∧
        (runControls L (initialState L) inputs).iShiftAmount < 10)) := by
  have hinv : ∀ inputs : List (Int × Int), ∃ k : Nat, k ≤ 10 ∧
      (runControls L (initialState L) inputs).fCarrierFrequency = 1 + 62.5 * k ∧
      (runControls L (initialState L) inputs).iShiftAmount
        = ((min (1 + k) 10 : Nat) : Int) := by
    intro inputs
    obtain ⟨k, hk, hf, hs, -⟩ := lockstep_runControls L inputs _ (lockstep_initialState L)
    exact ⟨k, hk, by rw [hf]; rfl, hs⟩
  refine ⟨hinv, ?_, ?_⟩
  · intro f
    constructor
    · rintro ⟨inputs, rfl⟩
      obtain ⟨k, hk, hf, -⟩ := hinv inputs
      exact ⟨k, hk, hf⟩
    · rintro ⟨k, hk, rfl⟩
      refine ⟨pressesB k, ?_⟩
      have hc := countPresses_pressesB k
      have h := (runControls_noPressA L (pressesB k) (initialState L) (Or.inl rfl) (Or.inl rfl)
        (by simpa [initialState, PRESSED, UNPRESSED] using hc.1)).2.2
      have hd : decide ((initialState L).iSwitch2Pressed = PRESSED) = false := by
        simp [initialState, PRESSED, UNPRESSED]
      have h1 : (initialState L).fCarrierFrequency = 1 + CARRIER_INC * (min 0 10 : Nat) := by
        simp [initialState]
      rw [hd, hc.2, h1, bumpFrequency_iterate] at h
      rw [h]
      have : min (0 + k) 10 = k := by omega
      rw [this]
      rfl
  · intro inputs
    obtain ⟨k, hk, hf, hs⟩ := hinv inputs
    rintro ⟨h1, h2⟩
    rw [hs] at h2
    have hk10 : k = 10 := by
      by_contra hne
      apply h1
      have : (k : ℚ) ≤ 9 := by exact_mod_cast (by omega : k ≤ 9)
      rw [hf]
      simp only [UPPER_CARRIER_FREQ]
      linarith
    subst hk10
    norm_num at h2

/-- Claim C15: when both switches show a rising edge in the same loop
iteration (both read pressed, both latches Unpressed), switch 1 is handled
before switch 2: whatever the frequency and the shift amount were, after the
iteration the mode is advanced by one (from a mode in 0..5 to the next one, 5
wrapping to 0), the frequency is 63.5 = 1 + 62.5, the shift amount is 2 and the
carrier is `createComplexSignal(63.5, 128)`; so the iteration that advances the
mode does not end at the baseline frequency and shift amount 1. -/
theorem C15_both_edges (L : Library) (s : ControllerState)
    (h1 : s.iSwitch1Pressed = UNPRESSED) (h2 : s.iSwitch2Pressed = UNPRESSED) :
    (controlStep L s PRESSED PRESSED).iMode =
      (if incrInt s.iMode ≥ MODE_TOTAL then 0 else incrInt s.iMode) ∧
    (0 ≤ s.iMode ∧ s.iMode ≤ 5 →
      (controlStep L s PRESSED PRESSED).iMode = (s.iMode + 1) % 6) ∧
    (controlStep L s PRESSED PRESSED).fCarrierFrequency = 63.5 ∧
    (controlStep L s PRESSED PRESSED).iShiftAmount = 2 ∧
    (controlStep L s PRESSED PRESSED).compCarrierSignal = L.createComplexSignal 63.5 128 ∧
    (controlStep L s PRESSED PRESSED).fCarrierFrequency ≠ 1 ∧
    (controlStep L s PRESSED PRESSED).iShiftAmount ≠ 1 := by
  have e : controlStep L s PRESSED PRESSED =
      { s with
        iMode := if incrInt s.iMode ≥ MODE_TOTAL then 0 else incrInt s.iMode
        iSwitch1Pressed := PRESSED
        iSwitch2Pressed := PRESSED
        fCarrierFrequency := 63.5
        iShiftAmount := 2
        compCarrierSignal := L.createComplexSignal 63.5 FRAME_SIZE } := by
    rw [controlStep, handleSwitch2_edge L (handleSwitch1 L s PRESSED) PRESSED rfl
      (by rw [handleSwitch1_iSwitch2Pressed]; exact h2), handleSwitch1_edge L s PRESSED rfl h1]
    have hf : (if (1 : ℚ) < UPPER_CARRIER_FREQ then 1 + CARRIER_INC else 1) = 63.5 := by
      simp only [UPPER_CARRIER_FREQ, CARRIER_INC]; norm_num
    simp only [hf]
    rfl
  rw [e]
  refine ⟨rfl, ?_, rfl, rfl, rfl, ?_, ?_⟩
  · rintro ⟨h0, h5⟩
    simp only [incrInt, MODE_TOTAL]
    split_ifs <;> omega
  · show (63.5 : ℚ) ≠ 1
    norm_num
  · show (2 : Int) ≠ 1
    norm_num

/-- Claim C15 at a state in mode 5 with frequency 626 and shift amount 10. -/
theorem C15_both_edges_witness :
    (controlStep sampleLibrary
        ⟨5, UNPRESSED, UNPRESSED, 10, 626, sampleLibrary.createComplexSignal 626 128⟩
        PRESSED PRESSED).iMode = 0 ∧
    (controlStep sampleLibrary
        ⟨5, UNPRESSED, UNPRESSED, 10, 626, sampleLibrary.createComplexSignal 626 128⟩
        PRESSED PRESSED).fCarrierFrequency = 63.5 ∧
    (controlStep sampleLibrary
        ⟨5, UNPRESSED, UNPRESSED, 10, 626, sampleLibrary.createComplexSignal 626 128⟩
        PRESSED PRESSED).iShiftAmount = 2 :=
  ⟨(C15_both_edges sampleLibrary
      ⟨5, UNPRESSED, UNPRESSED, 10, 626, sampleLibrary.createComplexSignal 626 128⟩
      rfl rfl).1,
    (C15_both_edges sampleLibrary
      ⟨5, UNPRESSED, UNPRESSED, 10, 626, sampleLibrary.createComplexSignal 626 128⟩
      rfl rfl).2.2.1,
    (C15_both_edges sampleLibrary
      ⟨5, UNPRESSED, UNPRESSED, 10, 626, sampleLibrary.createComplexSignal 626 128⟩
      rfl rfl).2.2.2.1⟩

/-- Claim C16: in every controller state reachable from the initial state the
mode is an integer in 0..5, one of the six defined modes: the counter
incremented by switch 1 never leaves them, so the dispatcher reaches the
shared `case MODE_DO_NOTHING` / `default` branch only with the mode
`MODE_DO_NOTHING`, never with an out-of-range mode. -/
theorem C16_mode_in_range (L : Library) (inputs : List (Int × Int)) :
    0 ≤ (runControls L (initialState L) inputs).iMode ∧
    (runControls L (initialState L) inputs).iMode ≤ 5 ∧
    (runControls L (initialState L) inputs).iMode < MODE_TOTAL ∧
    (runControls L (initialState L) inputs).iMode ∈ modeCycle := by
  have h := runControls_iMode L inputs (initialState L) (Or.inl rfl)
    (by simp [initialState, MODE_DO_NOTHING]) (by simp [initialState, MODE_DO_NOTHING, MODE_TOTAL])
  have h0 : (initialState L).iMode = 0 := rfl
  rw [h0, zero_add] at h
  generalize countPresses _ (inputs.map Prod.fst) = k at h
  generalize runControls L (initialState L) inputs = t at h ⊢
  have hlo : 0 ≤ t.iMode := by rw [h]; omega
  have hhi : t.iMode ≤ 5 := by rw [h]; omega
  refine ⟨hlo, hhi, by simp only [ MODE_TOTAL]; omega, ?_⟩
  have : t.iMode = 0 ∨ t.iMode = 1 ∨ t.iMode = 2 ∨ t.iMode = 3 ∨ t.iMode = 4 ∨
      t.iMode = 5 := by
    omega
  simp only [modeCycle, MODE_DO_NOTHING, MODE_BAND_PASS_FILTER, MODE_LOW_PASS_FILTER,
    MODE_BAND_PASS_SHIFT, MODE_LOW_PASS_SHIFT, MODE_FREQ_DOMAIN, List.mem_cons,
    List.mem_singleton]
  tauto

end AudioAdjuster
